import Mathlib

/-!
Verification of the MAAS cluster connection-discovery and secure-channel
lifecycle subsystem (provisioningserver.rpc.clusterservice and
provisioningserver.security).  The Python implementation modules are not
present in this source snapshot; only their test suites are.  The
definitions below are therefore modelled from the specification, with every
behavioural detail pinned down by the test suites
(src/provisioningserver/rpc/tests/test_clusterservice.py and
src/provisioningserver/tests/test_security.py) taken from those tests.
-/

namespace Maas

/-- An Address is a (host, port) pair: one TCP endpoint. -/
abbrev Address := String × Nat

/-- Modelled from the spec: a ClusterClient (a Channel) owns one TCP
connection to one candidate address for one named event-loop.  In
`ClusterClient.__init__` the address and the expected event-loop name are
stored on the instance (test__make_connection checks both attributes). -/
structure ClusterClient where
  address : Address
  eventloop : String
deriving DecidableEq, Repr

/-- The per-peer channel state machine of spec section 4.3:
CONNECTING, HANDSHAKING, READY, CLOSED; CLOSED is terminal. -/
inductive ChannelState
  | CONNECTING
  | HANDSHAKING
  | READY
  | CLOSED
deriving DecidableEq, Repr

/-- Association-list lookup, the model of Python dict key lookup
(`eventloop in self.connections`, `self.connections[eventloop]`). -/
def assocFind (k : String) : List (String × α) → Option α
  | [] => none
  | p :: ps => if p.1 = k then some p.2 else assocFind k ps

/-- The state of the ClusterClientService that `connectionMade` consults:
whether the service is running, and its connections dict mapping
event-loop name to the registered client. -/
structure PoolState where
  running : Bool
  connections : List (String × ClusterClient)

/-- The observable outcome of one `ClusterClient.connectionMade` event:
the updated connections dict, the state the arriving channel is left in,
and whether its transport was closed. -/
structure ConnectionMadeResult where
  connections : List (String × ClusterClient)
  clientState : ChannelState
  transportClosed : Bool
deriving Repr

/-- Modelled from the spec: `ClusterClient.connectionMade`, the missing
implementation, as pinned down by the tests test_connecting,
test_disconnects_when_there_is_an_existing_connection and
test_disconnects_when_service_is_not_running.  When the service is not
running the new channel immediately loses its connection; when a
connection is already registered for this event-loop name the new channel
immediately loses its connection; otherwise the channel is registered into
the connections dict at once (before the StartTLS-and-Identify handshake,
which `secureConnection` only then begins). -/
def connectionMade (s : PoolState) (c : ClusterClient) : ConnectionMadeResult :=
  if s.running = false then
    ⟨s.connections, ChannelState.CLOSED, true⟩
  else if (assocFind c.eventloop s.connections).isSome then
    ⟨s.connections, ChannelState.CLOSED, true⟩
  else
    ⟨(c.eventloop, c) :: s.connections, ChannelState.HANDSHAKING, false⟩

/-- Modelled from the spec: the connect half of
`ClusterClientService._update_connections` (the implementation module is
absent): iterate over the directory, and for every event-loop name not
already present in the connections dict, call `_make_connection` with the
first address in that entry.  Pinned down by
test__update_connections_initially and
test__update_connections_when_there_are_existing_connections.
Returns the list of (eventloop, address) arguments passed to
`_make_connection`. -/
def connectLoop (conns : List (String × ClusterClient)) :
    List (String × List Address) → List (String × Address)
  | [] => []
  | (n, addrs) :: rest =>
    if (assocFind n conns).isSome then connectLoop conns rest
    else
      match addrs.head? with
      | some a => (n, a) :: connectLoop conns rest
      | none => connectLoop conns rest

/-- Modelled from the spec: the drop half of
`ClusterClientService._update_connections`: every registered connection
whose event-loop name is absent from the directory is passed to
`_drop_connection`.  Returns the list of dropped clients. -/
def dropLoop (eventloops : List (String × List Address)) :
    List (String × ClusterClient) → List ClusterClient
  | [] => []
  | (n, c) :: rest =>
    if (assocFind n eventloops).isSome then dropLoop eventloops rest
    else c :: dropLoop eventloops rest

/-- Modelled from the spec: `ClusterClientService._update_connections`
(reconcile): connections are started for the new event-loops and dropped
for the vanished ones; names present in both the directory and the
connections dict are left untouched. -/
def update_connections (conns : List (String × ClusterClient))
    (eventloops : List (String × List Address)) :
    List (String × Address) × List ClusterClient :=
  (connectLoop conns eventloops, dropLoop eventloops conns)

/-- The possible outcomes of one `_make_connection` attempt, as the
error-handling code of `_update_connections` distinguishes them: success,
a ConnectError (connection refused and the like), or any other
exception. -/
inductive MakeOutcome
  | ok
  | connectError (reason : String)
  | unknownError (msg : String)
deriving DecidableEq, Repr

/-- A log line produced while reconciling: either the terse one-line
message `Event-loop <name> (<host>:<port>): <reason>` for a ConnectError,
or a full-traceback record for an unexpected error.  Pinned down by
test__update_connections_connect_error_is_logged_tersely and
test__update_connections_unknown_error_is_logged_with_stack. -/
inductive LogEntry
  | terse (eventloop : String) (host : String) (port : Nat) (reason : String)
  | traceback (msg : String)
deriving DecidableEq, Repr

/-- Modelled from the spec: the connect half of `_update_connections` with
its error handling.  Each `_make_connection` attempt is wrapped so that a
ConnectError is logged tersely, any other error is logged with a full
traceback, and in either case the loop continues with the remaining
peers.  `outcome` gives the result of each attempt.  Returns the attempts
made and the log lines produced. -/
def connectLoopRun (conns : List (String × ClusterClient))
    (outcome : String → Address → MakeOutcome) :
    List (String × List Address) → List (String × Address) × List LogEntry
  | [] => ([], [])
  | (n, addrs) :: rest =>
    let r := connectLoopRun conns outcome rest
    if (assocFind n conns).isSome then r
    else
      match addrs.head? with
      | some a =>
        match outcome n a with
        | MakeOutcome.ok => ((n, a) :: r.1, r.2)
        | MakeOutcome.connectError reason =>
            ((n, a) :: r.1, LogEntry.terse n a.1 a.2 reason :: r.2)
        | MakeOutcome.unknownError msg =>
            ((n, a) :: r.1, LogEntry.traceback msg :: r.2)
      | none => r

/-- Modelled from the spec: `_update_connections` as a whole under
failures: the connect attempts (with their logs) followed by the drop
phase, which runs whatever the outcomes of the attempts were. -/
def update_connections_run (conns : List (String × ClusterClient))
    (eventloops : List (String × List Address))
    (outcome : String → Address → MakeOutcome) :
    (List (String × Address) × List LogEntry) × List ClusterClient :=
  (connectLoopRun conns outcome eventloops, dropLoop eventloops conns)

/-- The result of `ClusterClientService.getClient`: a `common.Client`
wrapping one connection, as in `test_getClient`. -/
structure Client where
  conn : ClusterClient
deriving DecidableEq, Repr

/-- The error raised by `getClient` when the connections dict is empty:
`exceptions.NoConnectionsAvailable`. -/
inductive RpcError
  | noConnectionsAvailable
deriving DecidableEq, Repr

/-- Modelled from the spec: `ClusterClientService.getClient`: raise
NoConnectionsAvailable when the connections dict is empty, otherwise
return a Client wrapping an arbitrarily chosen registered connection
(`random.choice` modelled by the index `choice` reduced modulo the number
of connections).  Pinned down by test_getClient and
test_getClient_when_there_are_no_connections. -/
def getClient : List (String × ClusterClient) → Nat → Except RpcError Client
  | [], _ => Except.error RpcError.noConnectionsAvailable
  | p :: ps, choice =>
    Except.ok ⟨((p :: ps).get ⟨choice % (p :: ps).length,
      Nat.mod_lt _ (Nat.succ_pos _)⟩).2⟩

/-- The TLS parameters that the StartTLS call carries
(`get_tls_parameters()`): certificate material for this node and the
authorities it will verify the peer against. -/
structure TLSParams where
  localCertificate : String
  verifyAuthorities : List String
deriving DecidableEq, Repr

/-- Modelled from the spec: `get_tls_parameters` derives the certificate
material deterministically from the SharedSecret, so both sides can
verify each other without a certificate authority.  The derivation itself
is opaque here; what matters is that it is a deterministic function of
the secret. -/
def get_tls_parameters (secret : String) : TLSParams :=
  ⟨secret, [secret]⟩

/-- The remote calls a ClusterClient can issue during its handshake:
`amp.StartTLS` (carrying the TLS parameters) and `region.Identify`. -/
inductive RemoteCall
  | startTLS (params : TLSParams)
  | identify
deriving DecidableEq, Repr

/-- The peer as the handshake observes it: the `name` field of its
Identify response (`none` when the response has no name field). -/
structure Peer where
  identifyName : Option String
deriving DecidableEq, Repr

/-- A log line produced by `secureConnection`: the identity-mismatch
message carrying both the actual and the expected name, or (on success)
the echo of the host and peer certificates. -/
inductive HandshakeLog
  | identityMismatch (actual : Option String) (expected : String)
  | certificates (host : String) (peer : String)
deriving DecidableEq, Repr

/-- The observable outcome of one `secureConnection` run: the remote
calls issued in order, the log lines, the final channel state, and
whether the transport was closed. -/
structure SecureResult where
  calls : List RemoteCall
  logs : List HandshakeLog
  finalState : ChannelState
  transportClosed : Bool
deriving DecidableEq, Repr

/-- Modelled from the spec: `ClusterClient.secureConnection`, the missing
implementation, as pinned down by
test_secureConnection_calls_StartTLS_and_Identify and
test_secureConnection_disconnects_if_ident_does_not_match.  Two remote
calls are issued in order: StartTLS with the TLS parameters of this node,
then Identify.  If the name the peer identifies itself with differs from the
event-loop name this channel was created for, the discrepancy is logged
(actual and expected name), the transport is closed and the channel ends
CLOSED; on a match the certificates are echoed to the log, the transport
stays open and the channel is READY. -/
def secureConnection (c : ClusterClient) (secret : String) (peer : Peer) :
    SecureResult :=
  let tls := get_tls_parameters secret
  let calls := [RemoteCall.startTLS tls, RemoteCall.identify]
  if peer.identifyName = some c.eventloop then
    ⟨calls, [HandshakeLog.certificates tls.localCertificate tls.localCertificate],
      ChannelState.READY, false⟩
  else
    ⟨calls, [HandshakeLog.identityMismatch peer.identifyName c.eventloop],
      ChannelState.CLOSED, true⟩

/-- Modelled from the spec: `ClusterClientService._get_random_interval`
returns `random.randint(30, 90)`.  `randint a b` with entropy `r` is
modelled as `a + r % (b - a + 1)`, whose range is exactly the inclusive
interval of the Python call. -/
def randint (a b r : Nat) : Nat := a + r % (b - a + 1)

/-- Modelled from the spec: `_get_random_interval`, parameterised by the
entropy `r` drawn from the random source. -/
def get_random_interval (r : Nat) : Nat := randint 30 90 r

/-- The hex digit character for a value below 16, as Python hex encoding
produces it (lowercase). -/
def hexDigit (d : Fin 16) : Char :=
  if d.val < 10 then Char.ofNat (Char.toNat '0' + d.val)
  else Char.ofNat (Char.toNat 'a' + d.val - 10)

/-- The value of one hex digit character, or `none` when the character is
not a hex digit.  Uppercase digits are accepted as Python hex decoding
accepts them. -/
def hexVal (c : Char) : Option (Fin 16) :=
  if h : 48 ≤ c.toNat ∧ c.toNat ≤ 57 then
    some ⟨c.toNat - 48, by omega⟩
  else if h : 97 ≤ c.toNat ∧ c.toNat ≤ 102 then
    some ⟨c.toNat - 97 + 10, by omega⟩
  else if h : 65 ≤ c.toNat ∧ c.toNat ≤ 70 then
    some ⟨c.toNat - 65 + 10, by omega⟩
  else none

/-- Modelled from the spec: `security.to_hex`: hex-encode a byte string,
two lowercase hex characters per byte. -/
def to_hex : List (Fin 256) → List Char
  | [] => []
  | b :: bs =>
    hexDigit ⟨b.val / 16, by omega⟩ :: hexDigit ⟨b.val % 16, by omega⟩ :: to_hex bs

/-- Modelled from the spec: `security.to_bin`: decode a hex string back
into bytes; fails (`none`) on odd length or on a character that is not a
hex digit, the TypeError of
test__errors_when_filesystem_value_cannot_be_decoded. -/
def to_bin : List Char → Option (List (Fin 256))
  | [] => some []
  | [_] => none
  | c1 :: c2 :: rest =>
    match hexVal c1, hexVal c2, to_bin rest with
    | some d1, some d2, some bs =>
      some (⟨d1.val * 16 + d2.val, by omega⟩ :: bs)
    | _, _, _ => none

/-- Whitespace as stripping treats it. -/
def isSpaceChar (c : Char) : Bool :=
  c = ' ' || c = '\n' || c = '\t' || c = '\r'

/-- Python `str.strip()`: drop whitespace from both ends. -/
def stripChars (l : List Char) : List Char :=
  ((l.dropWhile isSpaceChar).reverse.dropWhile isSpaceChar).reverse

/-- The credential file as the store sees it: `none` when the file does
not exist, otherwise its character contents. -/
abbrev SecretFile := Option (List Char)

/-- The distinct decoding-error condition for a malformed stored
secret. -/
inductive SecretError
  | decodeError
deriving DecidableEq, Repr

/-- Modelled from the spec: `security.set_shared_secret_on_filesystem`:
under the file lock, write the hex encoding of the secret (permission
handling is outside this model).  Returns the new file contents. -/
def set_shared_secret_on_filesystem (secret : List (Fin 256)) : SecretFile :=
  some (to_hex secret)

/-- Modelled from the spec: `security.get_shared_secret_from_filesystem`:
under the file lock, a missing file is the normal absence (`ok none`);
otherwise the contents are stripped of surrounding whitespace and
hex-decoded, a malformed value being the decoding-error condition. -/
def get_shared_secret_from_filesystem (file : SecretFile) :
    Except SecretError (Option (List (Fin 256))) :=
  match file with
  | none => Except.ok none
  | some content =>
    match to_bin (stripChars content) with
    | some secret => Except.ok (some secret)
    | none => Except.error SecretError.decodeError

/-! ### Helper lemmas -/

theorem assocFind_eq_none_iff (k : String) (l : List (String × α)) :
    assocFind k l = none ↔ k ∉ l.map Prod.fst := by
  induction l with
  | nil => simp [assocFind]
  | cons p ps ih =>
    simp only [assocFind, List.map_cons, List.mem_cons]
    by_cases h : p.1 = k
    · simp [h]
    · simp [h, ih, Ne.symm h]

theorem assocFind_isSome_of_mem {k : String} {c : α} {l : List (String × α)}
    (h : (k, c) ∈ l) : (assocFind k l).isSome := by
  induction l with
  | nil => simp at h
  | cons p ps ih =>
    rcases List.mem_cons.mp h with h1 | h2
    · simp [assocFind, ← h1]
    · by_cases hp : p.1 = k
      · simp [assocFind, hp]
      · simpa [assocFind, hp] using ih h2

theorem mem_connectLoop (conns : List (String × ClusterClient))
    (eventloops : List (String × List Address)) (n : String) (a : Address) :
    (n, a) ∈ connectLoop conns eventloops ↔
      assocFind n conns = none ∧
        ∃ addrs, (n, addrs) ∈ eventloops ∧ addrs.head? = some a := by
  induction eventloops with
  | nil => simp [connectLoop]
  | cons p ps ih =>
    obtain ⟨m, addrs⟩ := p
    simp only [connectLoop]
    by_cases hm : (assocFind m conns).isSome
    · rw [if_pos hm, ih]
      constructor
      · rintro ⟨h1, addrs2, h2, h3⟩
        exact ⟨h1, addrs2, List.mem_cons_of_mem _ h2, h3⟩
      · rintro ⟨h1, addrs2, h2, h3⟩
        rcases List.mem_cons.mp h2 with he | he
        · exfalso
          rw [Prod.mk.injEq] at he
          rw [← he.1, h1] at hm
          simp at hm
        · exact ⟨h1, addrs2, he, h3⟩
    · rw [if_neg hm]
      rw [Option.not_isSome_iff_eq_none] at hm
      cases hh : addrs.head? with
      | none =>
        rw [ih]
        constructor
        · rintro ⟨h1, addrs2, h2, h3⟩
          exact ⟨h1, addrs2, List.mem_cons_of_mem _ h2, h3⟩
        · rintro ⟨h1, addrs2, h2, h3⟩
          rcases List.mem_cons.mp h2 with he | he
          · exfalso
            rw [Prod.mk.injEq] at he
            rw [he.2] at h3
            rw [h3] at hh
            simp at hh
          · exact ⟨h1, addrs2, he, h3⟩
      | some a0 =>
        simp only [List.mem_cons, ih]
        constructor
        · rintro (he | ⟨h1, addrs2, h2, h3⟩)
          · rw [Prod.mk.injEq] at he
            rw [← he.1] at hm ⊢
            exact ⟨hm, addrs, Or.inl rfl, by rw [hh, he.2]⟩
          · exact ⟨h1, addrs2, Or.inr h2, h3⟩
        · rintro ⟨h1, addrs2, h2, h3⟩
          rcases h2 with he | he
          · left
            rw [Prod.mk.injEq] at he
            have ha : some a = some a0 := by rw [← h3, he.2, hh]
            simp only [Option.some.injEq] at ha
            rw [Prod.mk.injEq]
            exact ⟨he.1, ha⟩
          · exact Or.inr ⟨h1, addrs2, he, h3⟩

theorem connectLoop_keys_sublist (conns : List (String × ClusterClient))
    (eventloops : List (String × List Address)) :
    ((connectLoop conns eventloops).map Prod.fst).Sublist
      (eventloops.map Prod.fst) := by
  induction eventloops with
  | nil => simp [connectLoop]
  | cons p ps ih =>
    obtain ⟨m, addrs⟩ := p
    simp only [connectLoop, List.map_cons]
    by_cases hm : (assocFind m conns).isSome
    · rw [if_pos hm]
      exact ih.cons _
    · rw [if_neg hm]
      cases hh : addrs.head? with
      | none => exact ih.cons _
      | some a0 => simpa using ih.cons₂ m

theorem mem_dropLoop (eventloops : List (String × List Address))
    (conns : List (String × ClusterClient)) (c : ClusterClient) :
    c ∈ dropLoop eventloops conns ↔
      ∃ n, (n, c) ∈ conns ∧ assocFind n eventloops = none := by
  induction conns with
  | nil => simp [dropLoop]
  | cons p ps ih =>
    obtain ⟨m, cm⟩ := p
    simp only [dropLoop]
    by_cases hm : (assocFind m eventloops).isSome
    · rw [if_pos hm, ih]
      constructor
      · rintro ⟨n, h1, h2⟩
        exact ⟨n, List.mem_cons_of_mem _ h1, h2⟩
      · rintro ⟨n, h1, h2⟩
        rcases List.mem_cons.mp h1 with he | he
        · exfalso
          rw [Prod.mk.injEq] at he
          rw [← he.1, h2] at hm
          simp at hm
        · exact ⟨n, he, h2⟩
    · rw [if_neg hm]
      rw [Option.not_isSome_iff_eq_none] at hm
      simp only [List.mem_cons, ih]
      constructor
      · rintro (he | ⟨n, h1, h2⟩)
        · exact ⟨m, Or.inl (by rw [he]), hm⟩
        · exact ⟨n, Or.inr h1, h2⟩
      · rintro ⟨n, h1, h2⟩
        rcases h1 with he | he
        · rw [Prod.mk.injEq] at he
          exact Or.inl he.2
        · exact Or.inr ⟨n, he, h2⟩

/-- The log line one attempt produces, given its outcome. -/
def attemptLog (outcome : String → Address → MakeOutcome)
    (p : String × Address) : Option LogEntry :=
  match outcome p.1 p.2 with
  | MakeOutcome.ok => none
  | MakeOutcome.connectError reason =>
    some (LogEntry.terse p.1 p.2.1 p.2.2 reason)
  | MakeOutcome.unknownError msg => some (LogEntry.traceback msg)

theorem connectLoopRun_eq (conns : List (String × ClusterClient))
    (outcome : String → Address → MakeOutcome)
    (eventloops : List (String × List Address)) :
    connectLoopRun conns outcome eventloops =
      (connectLoop conns eventloops,
        (connectLoop conns eventloops).filterMap (attemptLog outcome)) := by
  induction eventloops with
  | nil => simp [connectLoopRun, connectLoop]
  | cons p ps ih =>
    obtain ⟨m, addrs⟩ := p
    simp only [connectLoopRun, connectLoop, ih]
    by_cases hm : (assocFind m conns).isSome
    · rw [if_pos hm, if_pos hm]
    · rw [if_neg hm, if_neg hm]
      cases hh : addrs.head? with
      | none => rfl
      | some a0 =>
        simp only
        cases ho : outcome m a0 <;>
          simp [List.filterMap_cons, attemptLog, ho]

theorem hexVal_hexDigit : ∀ d : Fin 16, hexVal (hexDigit d) = some d := by decide

theorem isSpaceChar_hexDigit : ∀ d : Fin 16, isSpaceChar (hexDigit d) = false := by
  decide

theorem to_hex_no_space (s : List (Fin 256)) :
    ∀ c ∈ to_hex s, isSpaceChar c = false := by
  induction s with
  | nil => simp [to_hex]
  | cons b bs ih =>
    intro c hc
    simp only [to_hex, List.mem_cons] at hc
    rcases hc with h | h | h
    · rw [h]; exact isSpaceChar_hexDigit _
    · rw [h]; exact isSpaceChar_hexDigit _
    · exact ih c h

theorem dropWhile_eq_self_of_all {p : Char → Bool} {l : List Char}
    (h : ∀ c ∈ l, p c = false) : l.dropWhile p = l := by
  cases l with
  | nil => rfl
  | cons a l =>
    rw [List.dropWhile_cons, h a (List.mem_cons_self a l)]
    simp

theorem stripChars_eq_self {l : List Char}
    (h : ∀ c ∈ l, isSpaceChar c = false) : stripChars l = l := by
  unfold stripChars
  rw [dropWhile_eq_self_of_all h,
    dropWhile_eq_self_of_all (fun c hc => h c (List.mem_reverse.mp hc)),
    List.reverse_reverse]

theorem to_bin_to_hex (s : List (Fin 256)) : to_bin (to_hex s) = some s := by
  induction s with
  | nil => rfl
  | cons b bs ih =>
    simp only [to_hex, to_bin, hexVal_hexDigit, ih]
    simp only [Option.some.injEq, List.cons.injEq]
    refine ⟨Fin.ext ?_, trivial⟩
    show b.val / 16 * 16 + b.val % 16 = b.val
    omega

/-! ### Claim theorems -/

/-- Claim C7: on every new connection, secureConnection issues exactly
two remote calls, in order: first the StartTLS command carrying the TLS
certificate parameters of this node, then the Identify command; no other
remote calls are made during the handshake. -/
theorem C7_handshake_sequence (c : ClusterClient) (secret : String) (peer : Peer) :
    (secureConnection c secret peer).calls =
      [RemoteCall.startTLS (get_tls_parameters secret), RemoteCall.identify] := by
  simp only [secureConnection]
  split <;> rfl

/-- Claim C8: for every byte string S, including values with a leading
zero byte, writing the shared secret and then reading it back returns
exactly S. -/
theorem C8_credential_roundtrip (secret : List (Fin 256)) :
    get_shared_secret_from_filesystem (set_shared_secret_on_filesystem secret) =
      Except.ok (some secret) := by
  simp only [set_shared_secret_on_filesystem, get_shared_secret_from_filesystem]
  rw [stripChars_eq_self (to_hex_no_space secret), to_bin_to_hex]

/-- Claim C9: every value returned by the randomized poll-interval
function lies between 30 and 90 inclusive. -/
theorem C9_interval_bounds (r : Nat) :
    30 ≤ get_random_interval r ∧ get_random_interval r ≤ 90 := by
  unfold get_random_interval randint
  omega

/-- Claim C3: when the Identify response carries a name different from
the event-loop name the channel was created for, secureConnection closes
the transport, the channel ends CLOSED and both the actual and the
expected name are logged; when the name matches, the transport is not
closed. -/
theorem C3_identity_mismatch (c : ClusterClient) (secret : String)
    (peer : Peer) (n : String) (hn : peer.identifyName = some n) :
    (n ≠ c.eventloop →
      (secureConnection c secret peer).transportClosed = true ∧
      (secureConnection c secret peer).finalState = ChannelState.CLOSED ∧
      HandshakeLog.identityMismatch (some n) c.eventloop ∈
        (secureConnection c secret peer).logs) ∧
    (n = c.eventloop →
      (secureConnection c secret peer).transportClosed = false ∧
      (secureConnection c secret peer).finalState = ChannelState.READY) := by
  constructor
  · intro hne
    simp [secureConnection, hn, hne]
  · intro heq
    have hd : peer.identifyName = some c.eventloop := by rw [hn, heq]
    simp [secureConnection, hd]

/-- Witness for C3 at the inputs of
test_secureConnection_disconnects_if_ident_does_not_match: the peer
identifies itself as bogus-name while eventloop:pid=12345 was
expected. -/
theorem C3_witness :
    (secureConnection ⟨("example.com", 1234), "eventloop:pid=12345"⟩
        "shared-secret" ⟨some "bogus-name"⟩).transportClosed = true ∧
    HandshakeLog.identityMismatch (some "bogus-name") "eventloop:pid=12345" ∈
      (secureConnection ⟨("example.com", 1234), "eventloop:pid=12345"⟩
        "shared-secret" ⟨some "bogus-name"⟩).logs :=
  have h := C3_identity_mismatch ⟨("example.com", 1234), "eventloop:pid=12345"⟩
    "shared-secret" ⟨some "bogus-name"⟩ "bogus-name" rfl
  ⟨(h.1 (by decide)).1, (h.1 (by decide)).2.2⟩

/-- Claim C5: getClient fails with NoConnectionsAvailable exactly when
the connections dict is empty; when it is non-empty it returns a Client
wrapping one of the registered connections. -/
theorem C5_getClient (conns : List (String × ClusterClient)) (choice : Nat) :
    (getClient conns choice = Except.error RpcError.noConnectionsAvailable ↔
      conns = []) ∧
    (conns ≠ [] → ∃ p ∈ conns, getClient conns choice = Except.ok ⟨p.2⟩) := by
  cases conns with
  | nil => simp [getClient]
  | cons p ps =>
    constructor
    · simp [getClient]
    · intro _
      exact ⟨(p :: ps).get ⟨choice % (p :: ps).length,
        Nat.mod_lt _ (Nat.succ_pos _)⟩, List.get_mem _ _ _, rfl⟩

/-- Witness for C5 on a one-connection dict. -/
theorem C5_witness :
    ∃ p ∈ [("host1:pid=1001",
        (⟨("1.1.1.1", 1111), "host1:pid=1001"⟩ : ClusterClient))],
      getClient [("host1:pid=1001",
        (⟨("1.1.1.1", 1111), "host1:pid=1001"⟩ : ClusterClient))] 0 =
        Except.ok ⟨p.2⟩ :=
  (C5_getClient [("host1:pid=1001", ⟨("1.1.1.1", 1111), "host1:pid=1001"⟩)] 0).2
    (List.cons_ne_nil _ _)

/-- Counterexample to claim C2 as stated: immediately after
connectionMade on a running service with an empty connections dict (the
situation of test_connecting), the connections dict contains the new
channel even though that channel has not yet passed the
StartTLS-and-Identify handshake: it is in state HANDSHAKING, not READY.
Registration happens at TCP-connection time, before the handshake. -/
theorem C2_counterexample :
    (connectionMade ⟨true, []⟩
        ⟨("example.com", 1234), "eventloop:pid=12345"⟩).connections =
      [("eventloop:pid=12345",
        ⟨("example.com", 1234), "eventloop:pid=12345"⟩)] ∧
    (connectionMade ⟨true, []⟩
        ⟨("example.com", 1234), "eventloop:pid=12345"⟩).clientState ≠
      ChannelState.READY := by
  constructor
  · rfl
  · intro h
    simp [connectionMade, assocFind] at h

/-- Claim C2 as amended: a channel is registered into the connections
dict at the moment its TCP connection is made, provided the service is
running and no connection for its event-loop name exists; at that moment
the channel has not yet completed the StartTLS-and-Identify handshake
(it is in state HANDSHAKING), so registration precedes handshake
completion rather than following it. -/
theorem C2_registration_precedes_handshake (s : PoolState) (c : ClusterClient)
    (hrun : s.running = true)
    (habs : assocFind c.eventloop s.connections = none) :
    (connectionMade s c).connections = (c.eventloop, c) :: s.connections ∧
    (connectionMade s c).clientState = ChannelState.HANDSHAKING ∧
    (connectionMade s c).transportClosed = false := by
  simp [connectionMade, hrun, habs]

/-- Witness for the amended C2 at the inputs of test_connecting. -/
theorem C2_witness :
    (connectionMade ⟨true, []⟩
        ⟨("example.com", 1234), "eventloop:pid=12345"⟩).connections =
      ("eventloop:pid=12345",
        (⟨("example.com", 1234), "eventloop:pid=12345"⟩ : ClusterClient)) :: [] ∧
    (connectionMade ⟨true, []⟩
        ⟨("example.com", 1234), "eventloop:pid=12345"⟩).clientState =
      ChannelState.HANDSHAKING ∧
    (connectionMade ⟨true, []⟩
        ⟨("example.com", 1234), "eventloop:pid=12345"⟩).transportClosed = false :=
  C2_registration_precedes_handshake ⟨true, []⟩
    ⟨("example.com", 1234), "eventloop:pid=12345"⟩ rfl rfl

/-- Claim C4: when a connection for an event-loop name is already
registered, a second channel for the same name disconnects itself on
connectionMade and the connections dict is unchanged; consequently
distinct keys stay distinct, so the dict never holds two simultaneously
registered channels for one event-loop name. -/
theorem C4_single_connection_per_eventloop (s : PoolState) (c : ClusterClient) :
    ((assocFind c.eventloop s.connections).isSome →
      (connectionMade s c).connections = s.connections ∧
      (connectionMade s c).transportClosed = true ∧
      (connectionMade s c).clientState = ChannelState.CLOSED) ∧
    ((s.connections.map Prod.fst).Nodup →
      ((connectionMade s c).connections.map Prod.fst).Nodup) := by
  constructor
  · intro h
    by_cases hr : s.running = false
    · simp [connectionMade, hr]
    · simp [connectionMade, hr, h]
  · intro hnd
    by_cases hr : s.running = false
    · simpa [connectionMade, hr] using hnd
    · by_cases h : (assocFind c.eventloop s.connections).isSome
      · simpa [connectionMade, hr, h] using hnd
      · rw [Option.not_isSome_iff_eq_none] at h
        have hstep : (connectionMade s c).connections =
            (c.eventloop, c) :: s.connections := by
          simp [connectionMade, hr, h]
        rw [hstep, List.map_cons]
        rw [assocFind_eq_none_iff] at h
        exact List.nodup_cons.mpr ⟨h, hnd⟩

/-- Witness for C4 at the inputs of
test_disconnects_when_there_is_an_existing_connection: a connection for
the event-loop already exists, so the second channel disconnects and the
dict is unchanged. -/
theorem C4_witness :
    (connectionMade
        ⟨true, [("eventloop:pid=12345",
          ⟨("other.example.com", 5678), "eventloop:pid=12345"⟩)]⟩
        ⟨("example.com", 1234), "eventloop:pid=12345"⟩).connections =
      [("eventloop:pid=12345",
        ⟨("other.example.com", 5678), "eventloop:pid=12345"⟩)] ∧
    (connectionMade
        ⟨true, [("eventloop:pid=12345",
          ⟨("other.example.com", 5678), "eventloop:pid=12345"⟩)]⟩
        ⟨("example.com", 1234), "eventloop:pid=12345"⟩).transportClosed = true :=
  have h := C4_single_connection_per_eventloop
    ⟨true, [("eventloop:pid=12345",
      ⟨("other.example.com", 5678), "eventloop:pid=12345"⟩)]⟩
    ⟨("example.com", 1234), "eventloop:pid=12345"⟩
  ⟨(h.1 (by decide)).1, (h.1 (by decide)).2.1⟩

/-- Claim C10: when the service is not running at the moment a channel
establishes its TCP connection, the channel disconnects itself
immediately and is never added to the connections dict. -/
theorem C10_shutdown_gating (s : PoolState) (c : ClusterClient)
    (h : s.running = false) :
    (connectionMade s c).connections = s.connections ∧
    (connectionMade s c).transportClosed = true ∧
    (connectionMade s c).clientState = ChannelState.CLOSED := by
  simp [connectionMade, h]

/-- Witness for C10 at the inputs of
test_disconnects_when_service_is_not_running. -/
theorem C10_witness :
    (connectionMade ⟨false, []⟩
        ⟨("example.com", 1234), "eventloop:pid=12345"⟩).connections = [] ∧
    (connectionMade ⟨false, []⟩
        ⟨("example.com", 1234), "eventloop:pid=12345"⟩).transportClosed = true ∧
    (connectionMade ⟨false, []⟩
        ⟨("example.com", 1234), "eventloop:pid=12345"⟩).clientState =
      ChannelState.CLOSED :=
  C10_shutdown_gating ⟨false, []⟩
    ⟨("example.com", 1234), "eventloop:pid=12345"⟩ rfl

/-- Claim C1: for every directory, reconciliation starts exactly one new
connection for each event-loop name present in the directory but absent
from the connections dict, to the first address of its candidate list;
drops exactly the registered connections whose event-loop name is absent
from the directory; and neither creates nor drops a connection for a name
present in both, even when its address list has changed.  The keys of the
new attempts are distinct when the directory keys are, so no name gets
more than one new connection. -/
theorem C1_update_connections_diff (conns : List (String × ClusterClient))
    (eventloops : List (String × List Address))
    (hkeys : ∀ p ∈ conns, p.2.eventloop = p.1) :
    (∀ n a, (n, a) ∈ (update_connections conns eventloops).1 ↔
      assocFind n conns = none ∧
        ∃ addrs, (n, addrs) ∈ eventloops ∧ addrs.head? = some a) ∧
    (∀ c, c ∈ (update_connections conns eventloops).2 ↔
      (c.eventloop, c) ∈ conns ∧ assocFind c.eventloop eventloops = none) ∧
    (∀ n c, (n, c) ∈ conns → (assocFind n eventloops).isSome →
      (∀ a, (n, a) ∉ (update_connections conns eventloops).1) ∧
      c ∉ (update_connections conns eventloops).2) ∧
    ((eventloops.map Prod.fst).Nodup →
      (((update_connections conns eventloops).1.map Prod.fst)).Nodup) := by
  refine ⟨?_, ?_, ?_, ?_⟩
  · intro n a
    exact mem_connectLoop conns eventloops n a
  · intro c
    rw [update_connections, mem_dropLoop]
    constructor
    · rintro ⟨n, h1, h2⟩
      have he : c.eventloop = n := hkeys (n, c) h1
      rw [he]
      exact ⟨h1, h2⟩
    · rintro ⟨h1, h2⟩
      exact ⟨c.eventloop, h1, h2⟩
  · intro n c hmem hsome
    constructor
    · intro a hmake
      rw [update_connections, mem_connectLoop] at hmake
      have := assocFind_isSome_of_mem hmem
      rw [hmake.1] at this
      simp at this
    · intro hdrop
      rw [update_connections, mem_dropLoop] at hdrop
      obtain ⟨n2, h1, h2⟩ := hdrop
      have he2 : c.eventloop = n2 := hkeys (n2, c) h1
      have he : c.eventloop = n := hkeys (n, c) hmem
      rw [he2.symm.trans he] at h2
      rw [h2] at hsome
      simp at hsome
  · intro hnd
    exact hnd.sublist (connectLoop_keys_sublist conns eventloops)

/-- Witness for C1 on the directory and connections of
test__update_connections_when_there_are_existing_connections: host3 is
new so a connection to its first address is started, host2 vanished so
its client is dropped. -/
theorem C1_witness :
    ("host3:pid=3", (("3.3.3.3", 3333) : Address)) ∈
      (update_connections
        [("host1:pid=1", ⟨("1.1.1.1", 1111), "host1:pid=1"⟩),
         ("host2:pid=2", ⟨("2.2.2.2", 2222), "host2:pid=2"⟩)]
        [("host1:pid=1", [(("1.1.1.1", 1111) : Address)]),
         ("host3:pid=3", [(("3.3.3.3", 3333) : Address)])]).1 ∧
    (⟨("2.2.2.2", 2222), "host2:pid=2"⟩ : ClusterClient) ∈
      (update_connections
        [("host1:pid=1", ⟨("1.1.1.1", 1111), "host1:pid=1"⟩),
         ("host2:pid=2", ⟨("2.2.2.2", 2222), "host2:pid=2"⟩)]
        [("host1:pid=1", [(("1.1.1.1", 1111) : Address)]),
         ("host3:pid=3", [(("3.3.3.3", 3333) : Address)])]).2 :=
  have h := C1_update_connections_diff
    [("host1:pid=1", ⟨("1.1.1.1", 1111), "host1:pid=1"⟩),
     ("host2:pid=2", ⟨("2.2.2.2", 2222), "host2:pid=2"⟩)]
    [("host1:pid=1", [(("1.1.1.1", 1111) : Address)]),
     ("host3:pid=3", [(("3.3.3.3", 3333) : Address)])]
    (by decide)
  ⟨(h.1 "host3:pid=3" ("3.3.3.3", 3333)).mpr
      ⟨by decide, [("3.3.3.3", 3333)], by decide, rfl⟩,
    (h.2.1 ⟨("2.2.2.2", 2222), "host2:pid=2"⟩).mpr ⟨by decide, by decide⟩⟩

/-- Claim C6: an error while starting one peer connection does not abort
reconciliation: the attempts made and the connections dropped are the
same whatever the outcomes of the individual attempts are (so the call
completes normally and no error escapes); a ConnectError is logged as a
terse entry carrying event-loop name, host, port and reason, while an
unexpected error is logged as a full-traceback entry. -/
theorem C6_error_isolation (conns : List (String × ClusterClient))
    (eventloops : List (String × List Address))
    (outcome : String → Address → MakeOutcome) :
    ((update_connections_run conns eventloops outcome).1.1 =
      (update_connections conns eventloops).1) ∧
    ((update_connections_run conns eventloops outcome).2 =
      (update_connections conns eventloops).2) ∧
    (∀ n a reason,
      (n, a) ∈ (update_connections_run conns eventloops outcome).1.1 →
      outcome n a = MakeOutcome.connectError reason →
      LogEntry.terse n a.1 a.2 reason ∈
        (update_connections_run conns eventloops outcome).1.2) ∧
    (∀ n a msg,
      (n, a) ∈ (update_connections_run conns eventloops outcome).1.1 →
      outcome n a = MakeOutcome.unknownError msg →
      LogEntry.traceback msg ∈
        (update_connections_run conns eventloops outcome).1.2) := by
  refine ⟨?_, ?_, ?_, ?_⟩
  · rw [update_connections_run, update_connections, connectLoopRun_eq]
  · rfl
  · intro n a reason hmem ho
    rw [update_connections_run, connectLoopRun_eq] at hmem ⊢
    simp only at hmem ⊢
    exact List.mem_filterMap.mpr ⟨(n, a), hmem, by simp [attemptLog, ho]⟩
  · intro n a msg hmem ho
    rw [update_connections_run, connectLoopRun_eq] at hmem ⊢
    simp only at hmem ⊢
    exact List.mem_filterMap.mpr ⟨(n, a), hmem, by simp [attemptLog, ho]⟩

/-- Witness for C6 at the inputs of
test__update_connections_connect_error_is_logged_tersely: the attempt on
an-event-loop at hostname:1234 is refused and the terse log line is
produced. -/
theorem C6_witness :
    LogEntry.terse "an-event-loop" "hostname" 1234
        "Connection was refused by other side." ∈
      (update_connections_run []
        [("an-event-loop", [(("hostname", 1234) : Address)])]
        (fun _ _ =>
          MakeOutcome.connectError
            "Connection was refused by other side.")).1.2 :=
  (C6_error_isolation []
      [("an-event-loop", [(("hostname", 1234) : Address)])]
      (fun _ _ =>
        MakeOutcome.connectError
          "Connection was refused by other side.")).2.2.1
    "an-event-loop" ("hostname", 1234) "Connection was refused by other side."
    (by decide) rfl

end Maas
